import Mathlib

/-!
Shallow embedding of the OAuth 2.1 Authorization Server of the mcp-proxy
repository (src/oauth.go), together with theorems settling the claims about
its behaviour.

Modelling conventions:
* Go maps (`clients`, `authCodes`, `accessTokens`) are association lists
  `List (String × α)` with lookup / delete / assignment mirroring Go map
  semantics (`mapGet`, `mapErase`, `mapSet`).
* `time.Time` instants are `Nat` (seconds); Go's `a.After(b)` is `b < a`.
* `generateRandomString` outputs are threaded in as explicit parameters
  (`newAccessToken`, `newRefreshToken`, `newCode`, ...), since the Go code
  only ever compares and stores them.
* `base64url(sha256 ·)` (unpadded), used by the PKCE check, is threaded in as
  an explicit function parameter `s256 : String → String`; the handlers only
  apply it and compare the result for string equality, exactly as the source
  does.
* Each state-mutating handler returns, besides its HTTP-level result and the
  new in-memory state, the list of states at which `saveClients` was invoked
  (the persisted snapshot is a pure function of that state).
-/

namespace MCPProxy

/-- Go map lookup `v, ok := m[k]` on the association-list model. -/
def mapGet {α : Type} (l : List (String × α)) (k : String) : Option α :=
  (l.find? (fun p => p.1 == k)).map (fun p => p.2)

/-- Go map deletion `delete(m, k)` on the association-list model. -/
def mapErase {α : Type} (l : List (String × α)) (k : String) : List (String × α) :=
  l.filter (fun p => !(p.1 == k))

/-- Go map assignment `m[k] = v` on the association-list model. -/
def mapSet {α : Type} (l : List (String × α)) (k : String) (v : α) : List (String × α) :=
  (k, v) :: mapErase l k

/-- OAuthClient (src/oauth.go lines 34-41). -/
structure OAuthClient where
  clientID : String
  clientSecret : String
  redirectURIs : List String
  grantTypes : List String
  createdAt : Nat
  clientName : String
deriving Repr, DecidableEq

/-- AuthorizationCode (src/oauth.go lines 43-51). -/
structure AuthorizationCode where
  code : String
  clientID : String
  redirectURI : String
  scope : String
  codeChallenge : String
  expiresAt : Nat
  resource : String
deriving Repr, DecidableEq

/-- AccessToken (src/oauth.go lines 53-60). Note: the structure has no
username field; the login username is not recorded in issued tokens. -/
structure AccessToken where
  token : String
  refreshToken : String
  clientID : String
  scope : String
  resource : String
  expiresAt : Nat
deriving Repr, DecidableEq

/-- The three in-memory maps of OAuthServer (src/oauth.go lines 23-32). -/
structure ServerState where
  clients : List (String × OAuthClient)
  authCodes : List (String × AuthorizationCode)
  accessTokens : List (String × AccessToken)
deriving Repr, DecidableEq

/-- TokenResponse (src/oauth.go lines 103-109). -/
structure TokenResponse where
  accessToken : String
  tokenType : String
  expiresIn : Nat
  refreshToken : String
  scope : String
deriving Repr, DecidableEq

/-- OAuthError body plus HTTP status, as produced by writeOAuthError
(src/oauth.go lines 1243-1250). -/
structure OAuthErrorResponse where
  error : String
  errorDescription : String
  status : Nat
deriving Repr, DecidableEq

/-- Result of the token endpoint: a 200 TokenResponse or an OAuth error. -/
inductive TokenResult where
  | ok (resp : TokenResponse)
  | oauthError (e : OAuthErrorResponse)
deriving Repr, DecidableEq

/-- Output of a token-endpoint handler: HTTP result, new in-memory state, and
the states at which saveClients was called. -/
structure TokenOutput where
  result : TokenResult
  state : ServerState
  saves : List ServerState
deriving Repr, DecidableEq

/-- ClientRegistrationRequest (src/oauth.go lines 76-81). -/
structure ClientRegistrationRequest where
  redirectURIs : List String
  grantTypes : List String
  scope : String
  clientName : String
deriving Repr, DecidableEq

/-- ClientRegistrationResponse (src/oauth.go lines 84-90). -/
structure ClientRegistrationResponse where
  clientID : String
  clientSecret : String
  redirectURIs : List String
  grantTypes : List String
  createdAt : Nat
deriving Repr, DecidableEq

/-- Result of the registration endpoint (201 Created or an OAuth error). -/
inductive RegResult where
  | created (resp : ClientRegistrationResponse)
  | oauthError (e : OAuthErrorResponse)
deriving Repr, DecidableEq

/-- Output of the registration handler. -/
structure RegOutput where
  result : RegResult
  state : ServerState
  saves : List ServerState
deriving Repr, DecidableEq

/-- Data rendered into the success page (src/oauth.go lines 131-134 and
837-851): the page's redirect target is `redirectURI` with `code` (and
`state`, when non-empty, modelled as the `Option`) attached as query
parameters, and the page greets `username`. -/
structure SuccessPage where
  redirectURI : String
  code : String
  state : Option String
  username : String
deriving Repr, DecidableEq

/-- Result of POST /oauth/authorize (src/oauth.go lines 778-835): an OAuth
error, a re-rendered login form carrying a generic error message, or the
success page. -/
inductive AuthPostResult where
  | oauthError (e : OAuthErrorResponse)
  | loginRetry (errorMessage : String)
  | success (page : SuccessPage)
deriving Repr, DecidableEq

/-- Output of the POST /oauth/authorize handler. -/
structure AuthPostOutput where
  result : AuthPostResult
  state : ServerState
deriving Repr, DecidableEq

/-- The persisted file: the current format written by saveClients
(src/oauth.go lines 422-426, 494-498) or the legacy clients-only format
(src/oauth.go lines 463-468). The legacy format has no token field at all. -/
inductive PersistenceFile where
  | current (clients : List (String × OAuthClient))
      (accessTokens : List (String × AccessToken)) (savedAt : Nat)
  | legacy (clients : List (String × OAuthClient))
deriving Repr, DecidableEq

/-- saveClients (src/oauth.go lines 477-513): snapshots the clients and
access-token maps under the lock and writes them with a savedAt stamp. -/
def saveClients (now : Nat) (st : ServerState) : PersistenceFile :=
  PersistenceFile.current st.clients st.accessTokens now

/-- loadClients (src/oauth.go lines 428-475): the current format replaces the
clients map and keeps exactly the access tokens with `ExpiresAt.After(now)`;
the legacy fallback replaces only the clients map. -/
def loadClients (st : ServerState) (f : PersistenceFile) (now : Nat) : ServerState :=
  match f with
  | PersistenceFile.current cs ts _ =>
      { st with clients := cs, accessTokens := ts.filter (fun p => now < p.2.expiresAt) }
  | PersistenceFile.legacy cs => { st with clients := cs }

/-- isIPAllowed (src/oauth.go lines 1101-1112). -/
def isIPAllowed (clientIP : String) (allowedIPs : List String) : Bool :=
  if allowedIPs.length = 0 then true
  else allowedIPs.contains clientIP

/-- The fixed allowlist of accepted callback URLs (src/oauth.go lines
635-638). -/
def allowedCallbackURLs : List String :=
  ["https://claude.ai/api/mcp/auth_callback",
   "https://claude.com/api/mcp/auth_callback"]

/-- handleClientRegistration (src/oauth.go lines 601-693). `allowedIPs` is
`accessConfig.AllowedIPs` (empty when accessConfig is nil), `clientIP` the
value resolved by getClientIP, and `newClientID` / `newClientSecret` the two
generateRandomString outputs. The JSON-decode failure branch is outside this
model, which starts from a parsed request. -/
def handleClientRegistration (allowedIPs : List String) (clientIP : String)
    (req : ClientRegistrationRequest) (newClientID newClientSecret : String)
    (now : Nat) (st : ServerState) : RegOutput :=
  if 0 < allowedIPs.length ∧ ¬ isIPAllowed clientIP allowedIPs then
    ⟨RegResult.oauthError ⟨"access_denied", "Client registration not allowed from this IP", 403⟩, st, []⟩
  else if req.redirectURIs.length = 0 then
    ⟨RegResult.oauthError ⟨"invalid_redirect_uri", "At least one redirect URI is required", 400⟩, st, []⟩
  else if ¬ req.redirectURIs.all (fun uri => allowedCallbackURLs.contains uri) then
    ⟨RegResult.oauthError ⟨"invalid_redirect_uri", "Redirect URI not allowed", 400⟩, st, []⟩
  else
    let client : OAuthClient :=
      { clientID := newClientID
        clientSecret := newClientSecret
        redirectURIs := req.redirectURIs
        grantTypes := if 0 < req.grantTypes.length then req.grantTypes else ["authorization_code"]
        createdAt := now
        clientName := req.clientName }
    let st1 := { st with clients := mapSet st.clients newClientID client }
    ⟨RegResult.created
        { clientID := newClientID
          clientSecret := newClientSecret
          redirectURIs := req.redirectURIs
          grantTypes := client.grantTypes
          createdAt := now },
      st1, [st1]⟩

/-- handleAuthorizationPOST (src/oauth.go lines 778-835). `users` is
`accessConfig.Users` (`none` when accessConfig or Users is nil); `newCode` is
the generateRandomString output. ConstantTimeCompare of the two password
strings is equality. On success the handler stores a 10-minute authorization
code and renders the success page built by showSuccessPage. -/
def handleAuthorizationPOST (users : Option (List (String × String)))
    (newCode : String) (now : Nat) (st : ServerState)
    (username password clientID redirectURI scope state codeChallenge resource : String) :
    AuthPostOutput :=
  match users with
  | none => ⟨AuthPostResult.oauthError ⟨"server_error", "Authentication not configured", 500⟩, st⟩
  | some users =>
    match mapGet users username with
    | none => ⟨AuthPostResult.loginRetry "Invalid username or password. Please try again.", st⟩
    | some expectedPassword =>
      if password ≠ expectedPassword then
        ⟨AuthPostResult.loginRetry "Invalid username or password. Please try again.", st⟩
      else
        let authCode : AuthorizationCode :=
          { code := newCode
            clientID := clientID
            redirectURI := redirectURI
            scope := scope
            codeChallenge := codeChallenge
            expiresAt := now + 600
            resource := resource }
        ⟨AuthPostResult.success
            { redirectURI := redirectURI
              code := newCode
              state := if state = "" then none else some state
              username := username },
          { st with authCodes := mapSet st.authCodes newCode authCode }⟩

/-- The authorization_code arm of handleToken (src/oauth.go lines 935-1014),
after body parsing. `s256` stands for `base64url(sha256 ·)` without padding.
The authorization code is deleted on its (successful) lookup, before the
expiry, client/redirect and PKCE checks. -/
def handleTokenAuthCode (s256 : String → String)
    (newAccessToken newRefreshToken : String) (now tokenExpiration : Nat)
    (st : ServerState)
    (code redirectURI clientID codeVerifier resource : String) : TokenOutput :=
  if code = "" ∨ redirectURI = "" ∨ clientID = "" then
    ⟨TokenResult.oauthError ⟨"invalid_request", "Missing required parameters", 400⟩, st, []⟩
  else if (mapGet st.clients clientID).isNone then
    ⟨TokenResult.oauthError ⟨"invalid_client", "Client not found", 401⟩, st, []⟩
  else
    match mapGet st.authCodes code with
    | none =>
        ⟨TokenResult.oauthError ⟨"invalid_grant", "Invalid or expired authorization code", 400⟩, st, []⟩
    | some authCode =>
      let st1 := { st with authCodes := mapErase st.authCodes code }
      if authCode.expiresAt < now then
        ⟨TokenResult.oauthError ⟨"invalid_grant", "Authorization code expired", 400⟩, st1, []⟩
      else if authCode.clientID ≠ clientID ∨ authCode.redirectURI ≠ redirectURI then
        ⟨TokenResult.oauthError ⟨"invalid_grant", "Authorization code does not match client", 400⟩, st1, []⟩
      else if codeVerifier ≠ "" ∧ authCode.codeChallenge ≠ "" ∧ s256 codeVerifier ≠ authCode.codeChallenge then
        ⟨TokenResult.oauthError ⟨"invalid_grant", "PKCE verification failed", 400⟩, st1, []⟩
      else
        let token : AccessToken :=
          { token := newAccessToken
            refreshToken := newRefreshToken
            clientID := clientID
            scope := authCode.scope
            resource := resource
            expiresAt := now + tokenExpiration }
        let st2 := { st1 with accessTokens := mapSet st1.accessTokens newAccessToken token }
        ⟨TokenResult.ok
            { accessToken := newAccessToken
              tokenType := "Bearer"
              expiresIn := tokenExpiration
              refreshToken := newRefreshToken
              scope := authCode.scope },
          st2, [st2]⟩

/-- handleRefreshToken (src/oauth.go lines 1114-1215), after body parsing
(the working form-encoded path supplies `refreshToken`). The scan finds the
access-token entry holding the presented refresh token; on a find the entry
is deleted (and the deletion persisted) before the clientID ownership check
runs. -/
def handleRefreshToken (newAccessToken newRefreshToken : String)
    (now tokenExpiration : Nat) (st : ServerState)
    (clientID refreshToken : String) : TokenOutput :=
  if refreshToken = "" then
    ⟨TokenResult.oauthError ⟨"invalid_request", "Missing refresh_token", 400⟩, st, []⟩
  else if (mapGet st.clients clientID).isNone then
    ⟨TokenResult.oauthError ⟨"invalid_client", "Client not found", 401⟩, st, []⟩
  else
    match st.accessTokens.find? (fun p => p.2.refreshToken == refreshToken) with
    | none =>
        ⟨TokenResult.oauthError ⟨"invalid_grant", "Invalid refresh token", 400⟩, st, []⟩
    | some (oldKey, oldToken) =>
      let st1 := { st with accessTokens := mapErase st.accessTokens oldKey }
      if oldToken.clientID ≠ clientID then
        ⟨TokenResult.oauthError ⟨"invalid_grant", "Refresh token does not belong to client", 400⟩, st1, [st1]⟩
      else
        let token : AccessToken :=
          { token := newAccessToken
            refreshToken := newRefreshToken
            clientID := clientID
            scope := oldToken.scope
            resource := oldToken.resource
            expiresAt := now + tokenExpiration }
        let st2 := { st1 with accessTokens := mapSet st1.accessTokens newAccessToken token }
        ⟨TokenResult.ok
            { accessToken := newAccessToken
              tokenType := "Bearer"
              expiresIn := tokenExpiration
              refreshToken := newRefreshToken
              scope := oldToken.scope },
          st2, [st1, st2]⟩

/-- TokenRequest as parsed from the JSON or form body (src/oauth.go lines
93-100 plus the refresh_token field read by handleRefreshToken). -/
structure TokenRequest where
  grantType : String
  code : String
  redirectURI : String
  clientID : String
  codeVerifier : String
  resource : String
  refreshToken : String
deriving Repr, DecidableEq

/-- Grant-type dispatch of handleToken (src/oauth.go lines 925-933). -/
def handleToken (s256 : String → String)
    (newAccessToken newRefreshToken : String) (now tokenExpiration : Nat)
    (st : ServerState) (req : TokenRequest) : TokenOutput :=
  if req.grantType = "refresh_token" then
    handleRefreshToken newAccessToken newRefreshToken now tokenExpiration st
      req.clientID req.refreshToken
  else if req.grantType ≠ "authorization_code" then
    ⟨TokenResult.oauthError
        ⟨"unsupported_grant_type",
         "Only authorization_code and refresh_token grant types are supported", 400⟩, st, []⟩
  else
    handleTokenAuthCode s256 newAccessToken newRefreshToken now tokenExpiration st
      req.code req.redirectURI req.clientID req.codeVerifier req.resource

/-- ValidateToken (src/oauth.go lines 1218-1241). Returns the Go pair
`(*AccessToken, bool)` as an Option, together with the state after the
asynchronous cleanup goroutine scheduled for an expired entry has run. -/
def ValidateToken (now : Nat) (st : ServerState) (tokenString : String) :
    Option AccessToken × ServerState :=
  match mapGet st.accessTokens tokenString with
  | none => (none, st)
  | some token =>
    if token.expiresAt < now then
      (none, { st with accessTokens := mapErase st.accessTokens tokenString })
    else
      (some token, st)

/-! ### Helper lemmas about the association-list map model -/

theorem mapGet_mapErase_self {α : Type} (l : List (String × α)) (k : String) :
    mapGet (mapErase l k) k = none := by
  unfold mapGet mapErase
  have h : (l.filter (fun p => !(p.1 == k))).find? (fun p => p.1 == k) = none := by
    rw [List.find?_eq_none]
    intro x hx
    rcases List.mem_filter.mp hx with ⟨-, hx2⟩
    simpa using hx2
  rw [h]
  rfl

theorem mapGet_mapErase_ne {α : Type} (l : List (String × α)) (k k2 : String)
    (h : k2 ≠ k) : mapGet (mapErase l k) k2 = mapGet l k2 := by
  induction l with
  | nil => rfl
  | cons a t ih =>
    by_cases ha : a.1 = k
    · have hne : (a.1 == k2) = false := by
        rw [beq_eq_false_iff_ne]
        intro hk; exact h (by rw [← hk, ha])
      have hfil : mapErase (a :: t) k = mapErase t k := by
        unfold mapErase; rw [List.filter_cons, if_neg (by simp [ha])]
      rw [hfil, ih]
      unfold mapGet
      rw [List.find?_cons_of_neg _ (by simp [hne])]
    · have hfil : mapErase (a :: t) k = a :: mapErase t k := by
        unfold mapErase; rw [List.filter_cons, if_pos (by simp [ha])]
      rw [hfil]
      unfold mapGet
      cases hk2 : (a.1 == k2) with
      | true =>
        rw [List.find?_cons_of_pos _ (by simp [hk2]), List.find?_cons_of_pos _ (by simp [hk2])]
      | false =>
        rw [List.find?_cons_of_neg _ (by simp [hk2]), List.find?_cons_of_neg _ (by simp [hk2])]
        simpa [mapGet] using ih

theorem mapGet_mapSet_self {α : Type} (l : List (String × α)) (k : String) (v : α) :
    mapGet (mapSet l k v) k = some v := by
  unfold mapGet mapSet
  simp [List.find?_cons]

theorem mapGet_mapSet_ne {α : Type} (l : List (String × α)) (k k2 : String) (v : α)
    (h : k2 ≠ k) : mapGet (mapSet l k v) k2 = mapGet l k2 := by
  unfold mapSet
  have hk : (k == k2) = false := by simp [beq_eq_false_iff_ne]; exact fun hkk => h hkk.symm
  calc mapGet ((k, v) :: mapErase l k) k2
      = mapGet (mapErase l k) k2 := by unfold mapGet; simp [List.find?_cons, hk]
    _ = mapGet l k2 := mapGet_mapErase_ne l k k2 h

theorem mem_mapErase {α : Type} {l : List (String × α)} {k : String}
    {x : String × α} (hx : x ∈ mapErase l k) : x ∈ l ∧ x.1 ≠ k := by
  unfold mapErase at hx
  rcases List.mem_filter.mp hx with ⟨h1, h2⟩
  exact ⟨h1, by simpa using h2⟩

/-! ### Invariance lemmas about the handlers -/

/-- The authorization_code exchange never changes the clients map. -/
theorem handleTokenAuthCode_clients (s256 : String → String)
    (nAT nRT : String) (now tokenExp : Nat) (st : ServerState)
    (code redirectURI clientID codeVerifier resource : String) :
    (handleTokenAuthCode s256 nAT nRT now tokenExp st
        code redirectURI clientID codeVerifier resource).state.clients = st.clients := by
  unfold handleTokenAuthCode
  repeat' split
  all_goals rfl

/-- When the guards up to the code lookup pass, the lookup removes the code
from the code store in every outcome. -/
theorem handleTokenAuthCode_consumes (s256 : String → String)
    (nAT nRT : String) (now tokenExp : Nat) (st : ServerState)
    (code redirectURI clientID codeVerifier resource : String)
    (h1 : ¬ (code = "" ∨ redirectURI = "" ∨ clientID = ""))
    (h2 : ¬ ((mapGet st.clients clientID).isNone = true)) :
    mapGet (handleTokenAuthCode s256 nAT nRT now tokenExp st
        code redirectURI clientID codeVerifier resource).state.authCodes code = none := by
  unfold handleTokenAuthCode
  rw [if_neg h1, if_neg h2]
  split
  · next heq => simpa using heq
  · next a heq =>
    repeat' split
    all_goals simpa using mapGet_mapErase_self st.authCodes code

/-- An exchange against a state where the code is absent yields the
invalid_grant error, provided the earlier guards pass. -/
theorem handleTokenAuthCode_absent (s256 : String → String)
    (nAT nRT : String) (now tokenExp : Nat) (st : ServerState)
    (code redirectURI clientID codeVerifier resource : String)
    (h1 : ¬ (code = "" ∨ redirectURI = "" ∨ clientID = ""))
    (h2 : ¬ ((mapGet st.clients clientID).isNone = true))
    (hac : mapGet st.authCodes code = none) :
    (handleTokenAuthCode s256 nAT nRT now tokenExp st
        code redirectURI clientID codeVerifier resource).result
      = TokenResult.oauthError ⟨"invalid_grant", "Invalid or expired authorization code", 400⟩ := by
  unfold handleTokenAuthCode
  rw [if_neg h1, if_neg h2, hac]

/-- Dispatch: a grant_type=authorization_code request is handled by the
authorization_code arm. -/
theorem handleToken_dispatch_authcode (s256 : String → String)
    (nAT nRT : String) (now tokenExp : Nat) (st : ServerState)
    (code redirectURI clientID codeVerifier resource refreshToken : String) :
    handleToken s256 nAT nRT now tokenExp st
        ⟨"authorization_code", code, redirectURI, clientID, codeVerifier, resource, refreshToken⟩
      = handleTokenAuthCode s256 nAT nRT now tokenExp st
          code redirectURI clientID codeVerifier resource := by
  rfl

/-! ### Claim theorems -/

/-- C1: authorization codes are single-use via delete-on-lookup. For every
authorization code reaching the lookup of a grant_type=authorization_code
request at the token endpoint (parameters non-empty, client registered), the
lookup removes the code from the code store, so a second exchange of the same
code — with any verifier and any resource, hence also after a failed first
exchange such as a PKCE mismatch — yields invalid_grant. -/
theorem authorization_code_single_use (s256 : String → String)
    (nAT nRT nAT2 nRT2 : String) (now now2 tokenExp : Nat) (st : ServerState)
    (code redirectURI clientID codeVerifier verifier2 resource resource2 : String)
    (hcode : code ≠ "") (hred : redirectURI ≠ "") (hcid : clientID ≠ "")
    (hcli : (mapGet st.clients clientID).isSome = true) :
    mapGet (handleToken s256 nAT nRT now tokenExp st
        ⟨"authorization_code", code, redirectURI, clientID, codeVerifier, resource, ""⟩).state.authCodes
      code = none ∧
    (handleToken s256 nAT2 nRT2 now2 tokenExp
        (handleToken s256 nAT nRT now tokenExp st
          ⟨"authorization_code", code, redirectURI, clientID, codeVerifier, resource, ""⟩).state
        ⟨"authorization_code", code, redirectURI, clientID, verifier2, resource2, ""⟩).result
      = TokenResult.oauthError ⟨"invalid_grant", "Invalid or expired authorization code", 400⟩ := by
  have h1 : ¬ (code = "" ∨ redirectURI = "" ∨ clientID = "") := by
    push_neg; exact ⟨hcode, hred, hcid⟩
  have h2 : ¬ ((mapGet st.clients clientID).isNone = true) := by
    rw [Option.isNone_iff_eq_none]
    exact Option.isSome_iff_ne_none.mp hcli
  rw [handleToken_dispatch_authcode, handleToken_dispatch_authcode]
  have hcons := handleTokenAuthCode_consumes s256 nAT nRT now tokenExp st
    code redirectURI clientID codeVerifier resource h1 h2
  refine ⟨hcons, ?_⟩
  have hclients := handleTokenAuthCode_clients s256 nAT nRT now tokenExp st
    code redirectURI clientID codeVerifier resource
  exact handleTokenAuthCode_absent s256 nAT2 nRT2 now2 tokenExp _
    code redirectURI clientID verifier2 resource2 h1 (by rw [hclients]; exact h2) hcons

/-- Witness for C1 at a concrete state: a valid code is exchanged once and a
second exchange of the same code with a different verifier yields
invalid_grant. -/
theorem authorization_code_single_use_witness :
    (handleToken (fun _ => "") "A2" "R2" 5 3600
        (handleToken (fun _ => "") "A1" "R1" 5 3600
          ⟨[("c1", ⟨"c1", "s1", ["https://claude.ai/api/mcp/auth_callback"], ["authorization_code"], 0, "Claude"⟩)],
           [("K", ⟨"K", "c1", "https://claude.ai/api/mcp/auth_callback", "mcp", "", 700, ""⟩)],
           []⟩
          ⟨"authorization_code", "K", "https://claude.ai/api/mcp/auth_callback", "c1", "", "", ""⟩).state
        ⟨"authorization_code", "K", "https://claude.ai/api/mcp/auth_callback", "c1", "v2", "r2", ""⟩).result
      = TokenResult.oauthError ⟨"invalid_grant", "Invalid or expired authorization code", 400⟩ :=
  (authorization_code_single_use (fun _ => "") "A1" "R1" "A2" "R2" 5 5 3600
    ⟨[("c1", ⟨"c1", "s1", ["https://claude.ai/api/mcp/auth_callback"], ["authorization_code"], 0, "Claude"⟩)],
     [("K", ⟨"K", "c1", "https://claude.ai/api/mcp/auth_callback", "mcp", "", 700, ""⟩)],
     []⟩
    "K" "https://claude.ai/api/mcp/auth_callback" "c1" "" "v2" "" "r2"
    (by decide) (by decide) (by decide) (by decide)).2

/-- C5: the token validator is exact on liveness. A token string absent from
the token store validates to none (Go: nil, false); a stored token whose
expiresAt has passed validates to none regardless of any cleanup pass (the
store may or may not still hold the stale entry — both cases are instances of
the quantification over states); a stored token whose expiresAt has not
passed validates to the token itself (Go: token, true). -/
theorem validate_token_liveness (now : Nat) (st : ServerState) (t : String) :
    (mapGet st.accessTokens t = none → (ValidateToken now st t).1 = none) ∧
    (∀ tok, mapGet st.accessTokens t = some tok →
      (tok.expiresAt < now → (ValidateToken now st t).1 = none) ∧
      (¬ tok.expiresAt < now → (ValidateToken now st t).1 = some tok)) := by
  constructor
  · intro h; unfold ValidateToken; rw [h]
  · intro tok h
    constructor
    · intro h2; unfold ValidateToken; rw [h]; simp [h2]
    · intro h2; unfold ValidateToken; rw [h]; simp [h2]

/-- Witness for C5 at a concrete state holding one live and one expired
token: the live one validates to itself, the expired one and an absent
string validate to none. -/
theorem validate_token_liveness_witness :
    (ValidateToken 50 ⟨[], [], [("L", ⟨"L", "RL", "c", "mcp", "", 100⟩), ("E", ⟨"E", "RE", "c", "mcp", "", 10⟩)]⟩ "L").1
      = some ⟨"L", "RL", "c", "mcp", "", 100⟩ ∧
    (ValidateToken 50 ⟨[], [], [("L", ⟨"L", "RL", "c", "mcp", "", 100⟩), ("E", ⟨"E", "RE", "c", "mcp", "", 10⟩)]⟩ "E").1
      = none ∧
    (ValidateToken 50 ⟨[], [], [("L", ⟨"L", "RL", "c", "mcp", "", 100⟩), ("E", ⟨"E", "RE", "c", "mcp", "", 10⟩)]⟩ "G").1
      = none :=
  ⟨((validate_token_liveness 50 _ "L").2 ⟨"L", "RL", "c", "mcp", "", 100⟩ (by decide)).2 (by decide),
   ((validate_token_liveness 50 _ "E").2 ⟨"E", "RE", "c", "mcp", "", 10⟩ (by decide)).1 (by decide),
   (validate_token_liveness 50 _ "G").1 (by decide)⟩

/-- C6: persistence snapshot round-trip. Saving the in-memory state and
loading the written file reproduces the registered clients exactly and
exactly those access tokens whose expiresAt lies strictly in the future at
load time; loading a legacy-format file (which has no token field at all)
replaces only the clients map, so no token — expired or otherwise — can enter
the store from a legacy file. -/
theorem persistence_snapshot_roundtrip (st st0 : ServerState) (tSave tLoad : Nat)
    (legacyClients : List (String × OAuthClient)) :
    (loadClients st0 (saveClients tSave st) tLoad).clients = st.clients ∧
    (loadClients st0 (saveClients tSave st) tLoad).accessTokens
      = st.accessTokens.filter (fun p => tLoad < p.2.expiresAt) ∧
    (loadClients st0 (PersistenceFile.legacy legacyClients) tLoad).clients = legacyClients ∧
    (loadClients st0 (PersistenceFile.legacy legacyClients) tLoad).accessTokens
      = st0.accessTokens :=
  ⟨rfl, rfl, rfl, rfl⟩

/-- C10: the authorization endpoint never binds redirect_uri to a registered
client. For every submitted redirect_uri and client_id (the server state st —
in particular its client registry — is arbitrary, so this covers unregistered
redirect URIs and client_id values registered by no client) a POST with valid
credentials mints a fresh authorization code expiring 600 seconds (10
minutes) later and renders a success page whose redirect target is exactly
that redirect_uri with the code, and the state when non-empty, attached as
query parameters. -/
theorem authorize_accepts_any_redirect (users : List (String × String))
    (newCode : String) (now : Nat) (st : ServerState)
    (username password clientID redirectURI scope state codeChallenge resource : String)
    (hcred : mapGet users username = some password) :
    (handleAuthorizationPOST (some users) newCode now st
        username password clientID redirectURI scope state codeChallenge resource).result
      = AuthPostResult.success
          { redirectURI := redirectURI, code := newCode,
            state := if state = "" then none else some state, username := username } ∧
    mapGet (handleAuthorizationPOST (some users) newCode now st
        username password clientID redirectURI scope state codeChallenge resource).state.authCodes
        newCode
      = some { code := newCode, clientID := clientID, redirectURI := redirectURI,
               scope := scope, codeChallenge := codeChallenge, expiresAt := now + 600,
               resource := resource } := by
  unfold handleAuthorizationPOST
  dsimp only
  rw [hcred]
  simp [mapGet_mapSet_self]

/-- Witness for C10: with valid credentials, a redirect_uri far outside the
registration allowlist and a client_id registered by no client still receive
a code bound to exactly those values. -/
theorem authorize_accepts_any_redirect_witness :
    (handleAuthorizationPOST (some [("u", "p")]) "C10" 7 ⟨[], [], []⟩
        "u" "p" "ghost" "https://evil.example/callback" "mcp" "S" "CH" "res").result
      = AuthPostResult.success
          { redirectURI := "https://evil.example/callback", code := "C10",
            state := some "S", username := "u" } ∧
    mapGet (handleAuthorizationPOST (some [("u", "p")]) "C10" 7 ⟨[], [], []⟩
        "u" "p" "ghost" "https://evil.example/callback" "mcp" "S" "CH" "res").state.authCodes
        "C10"
      = some { code := "C10", clientID := "ghost",
               redirectURI := "https://evil.example/callback", scope := "mcp",
               codeChallenge := "CH", expiresAt := 607, resource := "res" } := by
  have h := authorize_accepts_any_redirect [("u", "p")] "C10" 7 ⟨[], [], []⟩
    "u" "p" "ghost" "https://evil.example/callback" "mcp" "S" "CH" "res" (by decide)
  simpa using h

/-- C2: PKCE guard semantics of the authorization_code exchange. With all
earlier guards passing (parameters present, client registered, code found and
unexpired, client and redirect binding matching), if a code_verifier is
supplied and the code carries a challenge then the exchange succeeds exactly
when s256 of the verifier — standing for unpadded base64url(sha256 ·) —
equals the stored challenge as a string, any mismatch yielding invalid_grant;
if the verifier is absent or the code carries no challenge, no verification
happens and the exchange succeeds. -/
theorem pkce_verifier_guard (s256 : String → String)
    (nAT nRT : String) (now tokenExp : Nat) (st : ServerState)
    (code redirectURI clientID codeVerifier resource : String)
    (authCode : AuthorizationCode)
    (hcode : code ≠ "") (hred : redirectURI ≠ "") (hcid : clientID ≠ "")
    (hcli : (mapGet st.clients clientID).isSome = true)
    (hac : mapGet st.authCodes code = some authCode)
    (hexp : ¬ authCode.expiresAt < now)
    (hbindc : authCode.clientID = clientID)
    (hbindr : authCode.redirectURI = redirectURI) :
    (codeVerifier ≠ "" → authCode.codeChallenge ≠ "" →
      (handleTokenAuthCode s256 nAT nRT now tokenExp st
          code redirectURI clientID codeVerifier resource).result
        = (if s256 codeVerifier = authCode.codeChallenge
            then TokenResult.ok ⟨nAT, "Bearer", tokenExp, nRT, authCode.scope⟩
            else TokenResult.oauthError ⟨"invalid_grant", "PKCE verification failed", 400⟩)) ∧
    ((codeVerifier = "" ∨ authCode.codeChallenge = "") →
      (handleTokenAuthCode s256 nAT nRT now tokenExp st
          code redirectURI clientID codeVerifier resource).result
        = TokenResult.ok ⟨nAT, "Bearer", tokenExp, nRT, authCode.scope⟩) := by
  have h1 : ¬ (code = "" ∨ redirectURI = "" ∨ clientID = "") := by
    push_neg; exact ⟨hcode, hred, hcid⟩
  have h2 : ¬ ((mapGet st.clients clientID).isNone = true) := by
    rw [Option.isNone_iff_eq_none]
    exact Option.isSome_iff_ne_none.mp hcli
  have h3 : ¬ (authCode.clientID ≠ clientID ∨ authCode.redirectURI ≠ redirectURI) := by
    push_neg; exact ⟨hbindc, hbindr⟩
  unfold handleTokenAuthCode
  rw [if_neg h1, if_neg h2, hac]
  dsimp only
  rw [if_neg hexp, if_neg h3]
  constructor
  · intro hv hch
    by_cases hs : s256 codeVerifier = authCode.codeChallenge
    · rw [if_neg (by push_neg; intro _ _; exact hs), if_pos hs]
    · rw [if_pos ⟨hv, hch, hs⟩, if_neg hs]
  · intro hor
    rw [if_neg (by rintro ⟨hv, hch, -⟩; rcases hor with h | h <;> simp_all)]

/-- Witness for C2: with a challenge-carrying code, the matching verifier
succeeds, a mismatching verifier yields invalid_grant, and an absent
verifier skips verification. The hash parameter maps the good verifier to
the stored challenge and everything else elsewhere. -/
theorem pkce_verifier_guard_witness :
    (handleTokenAuthCode (fun v => if v = "good" then "CH" else "BAD") "A" "R" 5 3600
        ⟨[("c1", ⟨"c1", "s1", ["https://claude.ai/api/mcp/auth_callback"], ["authorization_code"], 0, "Claude"⟩)],
         [("K", ⟨"K", "c1", "https://claude.ai/api/mcp/auth_callback", "mcp", "CH", 700, ""⟩)],
         []⟩
        "K" "https://claude.ai/api/mcp/auth_callback" "c1" "good" "res").result
      = TokenResult.ok ⟨"A", "Bearer", 3600, "R", "mcp"⟩ ∧
    (handleTokenAuthCode (fun v => if v = "good" then "CH" else "BAD") "A" "R" 5 3600
        ⟨[("c1", ⟨"c1", "s1", ["https://claude.ai/api/mcp/auth_callback"], ["authorization_code"], 0, "Claude"⟩)],
         [("K", ⟨"K", "c1", "https://claude.ai/api/mcp/auth_callback", "mcp", "CH", 700, ""⟩)],
         []⟩
        "K" "https://claude.ai/api/mcp/auth_callback" "c1" "evil" "res").result
      = TokenResult.oauthError ⟨"invalid_grant", "PKCE verification failed", 400⟩ ∧
    (handleTokenAuthCode (fun v => if v = "good" then "CH" else "BAD") "A" "R" 5 3600
        ⟨[("c1", ⟨"c1", "s1", ["https://claude.ai/api/mcp/auth_callback"], ["authorization_code"], 0, "Claude"⟩)],
         [("K", ⟨"K", "c1", "https://claude.ai/api/mcp/auth_callback", "mcp", "CH", 700, ""⟩)],
         []⟩
        "K" "https://claude.ai/api/mcp/auth_callback" "c1" "" "res").result
      = TokenResult.ok ⟨"A", "Bearer", 3600, "R", "mcp"⟩ := by
  refine ⟨?_, ?_, ?_⟩
  · have h := (pkce_verifier_guard (fun v => if v = "good" then "CH" else "BAD") "A" "R" 5 3600
      ⟨[("c1", ⟨"c1", "s1", ["https://claude.ai/api/mcp/auth_callback"], ["authorization_code"], 0, "Claude"⟩)],
       [("K", ⟨"K", "c1", "https://claude.ai/api/mcp/auth_callback", "mcp", "CH", 700, ""⟩)],
       []⟩
      "K" "https://claude.ai/api/mcp/auth_callback" "c1" "good" "res"
      ⟨"K", "c1", "https://claude.ai/api/mcp/auth_callback", "mcp", "CH", 700, ""⟩
      (by decide) (by decide) (by decide) (by decide) (by decide) (by decide)
      (by decide) (by decide)).1 (by decide) (by decide)
    simpa using h
  · have h := (pkce_verifier_guard (fun v => if v = "good" then "CH" else "BAD") "A" "R" 5 3600
      ⟨[("c1", ⟨"c1", "s1", ["https://claude.ai/api/mcp/auth_callback"], ["authorization_code"], 0, "Claude"⟩)],
       [("K", ⟨"K", "c1", "https://claude.ai/api/mcp/auth_callback", "mcp", "CH", 700, ""⟩)],
       []⟩
      "K" "https://claude.ai/api/mcp/auth_callback" "c1" "evil" "res"
      ⟨"K", "c1", "https://claude.ai/api/mcp/auth_callback", "mcp", "CH", 700, ""⟩
      (by decide) (by decide) (by decide) (by decide) (by decide) (by decide)
      (by decide) (by decide)).1 (by decide) (by decide)
    simpa using h
  · exact (pkce_verifier_guard (fun v => if v = "good" then "CH" else "BAD") "A" "R" 5 3600
      ⟨[("c1", ⟨"c1", "s1", ["https://claude.ai/api/mcp/auth_callback"], ["authorization_code"], 0, "Claude"⟩)],
       [("K", ⟨"K", "c1", "https://claude.ai/api/mcp/auth_callback", "mcp", "CH", 700, ""⟩)],
       []⟩
      "K" "https://claude.ai/api/mcp/auth_callback" "c1" "" "res"
      ⟨"K", "c1", "https://claude.ai/api/mcp/auth_callback", "mcp", "CH", 700, ""⟩
      (by decide) (by decide) (by decide) (by decide) (by decide) (by decide)
      (by decide) (by decide)).2 (Or.inl rfl)

/-- C3: refresh-token rotation is strictly single-use. For an access/refresh
pair held by an existing client (the pair's refresh token occurring in no
other entry, and the freshly generated strings distinct from the old ones), a
refresh_token exchange succeeds, deletes the old pair, mints and persists a
new pair carrying the same scope and resource, and a second refresh with the
now-stale refresh token yields invalid_grant. -/
theorem refresh_rotation_single_use (nAT nRT nAT2 nRT2 : String)
    (now now2 tokenExp : Nat) (st : ServerState)
    (clientID rt oldKey : String) (oldToken : AccessToken)
    (hrt : rt ≠ "") (hcli : (mapGet st.clients clientID).isSome = true)
    (hfind : st.accessTokens.find? (fun p => p.2.refreshToken == rt) = some (oldKey, oldToken))
    (hown : oldToken.clientID = clientID)
    (huniq : ∀ p ∈ st.accessTokens, p.2.refreshToken = rt → p.1 = oldKey)
    (hfreshRT : nRT ≠ rt) (hfreshAT : nAT ≠ oldKey) :
    (handleRefreshToken nAT nRT now tokenExp st clientID rt).result
      = TokenResult.ok ⟨nAT, "Bearer", tokenExp, nRT, oldToken.scope⟩ ∧
    mapGet (handleRefreshToken nAT nRT now tokenExp st clientID rt).state.accessTokens oldKey
      = none ∧
    mapGet (handleRefreshToken nAT nRT now tokenExp st clientID rt).state.accessTokens nAT
      = some ⟨nAT, nRT, clientID, oldToken.scope, oldToken.resource, now + tokenExp⟩ ∧
    (handleRefreshToken nAT nRT now tokenExp st clientID rt).saves
      = [{ st with accessTokens := mapErase st.accessTokens oldKey },
         (handleRefreshToken nAT nRT now tokenExp st clientID rt).state] ∧
    (handleRefreshToken nAT2 nRT2 now2 tokenExp
        (handleRefreshToken nAT nRT now tokenExp st clientID rt).state clientID rt).result
      = TokenResult.oauthError ⟨"invalid_grant", "Invalid refresh token", 400⟩ := by
  have h2 : ¬ ((mapGet st.clients clientID).isNone = true) := by
    rw [Option.isNone_iff_eq_none]
    exact Option.isSome_iff_ne_none.mp hcli
  have hred : handleRefreshToken nAT nRT now tokenExp st clientID rt
      = ⟨TokenResult.ok ⟨nAT, "Bearer", tokenExp, nRT, oldToken.scope⟩,
         { st with accessTokens := mapSet (mapErase st.accessTokens oldKey) nAT ⟨nAT, nRT, clientID, oldToken.scope, oldToken.resource, now + tokenExp⟩ },
         [{ st with accessTokens := mapErase st.accessTokens oldKey },
          { st with accessTokens := mapSet (mapErase st.accessTokens oldKey) nAT ⟨nAT, nRT, clientID, oldToken.scope, oldToken.resource, now + tokenExp⟩ }]⟩ := by
    unfold handleRefreshToken
    rw [if_neg hrt, if_neg h2, hfind]
    dsimp only
    rw [if_neg (by push_neg; exact hown)]
  rw [hred]
  refine ⟨rfl, ?_, mapGet_mapSet_self _ _ _, rfl, ?_⟩
  · show mapGet (mapSet (mapErase st.accessTokens oldKey) nAT _) oldKey = none
    rw [mapGet_mapSet_ne _ _ _ _ (fun h => hfreshAT h.symm)]
    exact mapGet_mapErase_self st.accessTokens oldKey
  · unfold handleRefreshToken
    rw [if_neg hrt, if_neg h2]
    have hnone : (mapSet (mapErase st.accessTokens oldKey) nAT
        ⟨nAT, nRT, clientID, oldToken.scope, oldToken.resource, now + tokenExp⟩).find?
          (fun p => p.2.refreshToken == rt) = none := by
      rw [List.find?_eq_none]
      intro x hx
      unfold mapSet at hx
      rcases List.mem_cons.mp hx with h | h
      · subst h; simpa using hfreshRT
      · rcases mem_mapErase h with ⟨hmem1, hne1⟩
        rcases mem_mapErase hmem1 with ⟨hmem, hneOld⟩
        simp only [beq_iff_eq]
        intro hrt2
        exact hneOld (huniq x hmem hrt2)
    rw [hnone]

/-- Witness for C3 at a concrete state: one pair is rotated and the stale
refresh token is then rejected with invalid_grant. -/
theorem refresh_rotation_single_use_witness :
    (handleRefreshToken "AT2" "RT2" 10 3600
        ⟨[("c1", ⟨"c1", "s1", ["https://claude.ai/api/mcp/auth_callback"], ["authorization_code"], 0, "Claude"⟩)],
         [], [("AT1", ⟨"AT1", "RT1", "c1", "mcp", "res", 4000⟩)]⟩
        "c1" "RT1").result
      = TokenResult.ok ⟨"AT2", "Bearer", 3600, "RT2", "mcp"⟩ ∧
    (handleRefreshToken "AT3" "RT3" 20 3600
        (handleRefreshToken "AT2" "RT2" 10 3600
          ⟨[("c1", ⟨"c1", "s1", ["https://claude.ai/api/mcp/auth_callback"], ["authorization_code"], 0, "Claude"⟩)],
           [], [("AT1", ⟨"AT1", "RT1", "c1", "mcp", "res", 4000⟩)]⟩
          "c1" "RT1").state "c1" "RT1").result
      = TokenResult.oauthError ⟨"invalid_grant", "Invalid refresh token", 400⟩ := by
  have h := refresh_rotation_single_use "AT2" "RT2" "AT3" "RT3" 10 20 3600
    ⟨[("c1", ⟨"c1", "s1", ["https://claude.ai/api/mcp/auth_callback"], ["authorization_code"], 0, "Claude"⟩)],
     [], [("AT1", ⟨"AT1", "RT1", "c1", "mcp", "res", 4000⟩)]⟩
    "c1" "RT1" "AT1" ⟨"AT1", "RT1", "c1", "mcp", "res", 4000⟩
    (by decide) (by decide) (by decide) (by decide) (by decide) (by decide) (by decide)
  exact ⟨h.1, h.2.2.2.2⟩

/-- A registered client used by the C4 cross-client refresh scenario. -/
def crossClient : OAuthClient :=
  { clientID := "clientB", clientSecret := "sB",
    redirectURIs := ["https://claude.ai/api/mcp/auth_callback"],
    grantTypes := ["authorization_code"], createdAt := 0, clientName := "Claude" }

/-- An access/refresh pair belonging to clientA, targeted by clientB. -/
def crossToken : AccessToken :=
  { token := "atA", refreshToken := "rtA", clientID := "clientA",
    scope := "mcp", resource := "", expiresAt := 1000 }

/-- Server state for the C4 scenario: clientB is registered, the store holds
clientA's pair only. -/
def crossState : ServerState :=
  { clients := [("clientB", crossClient)], authCodes := [],
    accessTokens := [("atA", crossToken)] }

/-- C4 counterexample: when registered clientB presents clientA's refresh
token, the service does return invalid_grant, but — contrary to the claim
that the token store is left unchanged on that error — the matched pair has
already been deleted (and the deletion persisted). -/
theorem refresh_mismatch_keeps_store_cex :
    ¬ ((handleRefreshToken "nAT" "nRT" 0 3600 crossState "clientB" "rtA").result
          = TokenResult.oauthError ⟨"invalid_grant", "Refresh token does not belong to client", 400⟩ →
        (handleRefreshToken "nAT" "nRT" 0 3600 crossState "clientB" "rtA").state.accessTokens
          = crossState.accessTokens) := by decide

/-- C4 as amended: for a refresh_token request from an existing client, the
pair found for the presented refresh token is deleted whenever the scan finds
a match, regardless of whether its clientID equals the requesting client;
when it belongs to a different client the service returns invalid_grant with
the pair already removed from the store and the deletion persisted. -/
theorem refresh_mismatch_still_deletes (nAT nRT : String)
    (now tokenExp : Nat) (st : ServerState)
    (clientID rt oldKey : String) (oldToken : AccessToken)
    (hrt : rt ≠ "") (hcli : (mapGet st.clients clientID).isSome = true)
    (hfind : st.accessTokens.find? (fun p => p.2.refreshToken == rt) = some (oldKey, oldToken))
    (hmis : oldToken.clientID ≠ clientID) :
    (handleRefreshToken nAT nRT now tokenExp st clientID rt).result
      = TokenResult.oauthError ⟨"invalid_grant", "Refresh token does not belong to client", 400⟩ ∧
    (handleRefreshToken nAT nRT now tokenExp st clientID rt).state.accessTokens
      = mapErase st.accessTokens oldKey ∧
    mapGet (handleRefreshToken nAT nRT now tokenExp st clientID rt).state.accessTokens oldKey
      = none ∧
    (handleRefreshToken nAT nRT now tokenExp st clientID rt).saves
      = [(handleRefreshToken nAT nRT now tokenExp st clientID rt).state] := by
  have h2 : ¬ ((mapGet st.clients clientID).isNone = true) := by
    rw [Option.isNone_iff_eq_none]
    exact Option.isSome_iff_ne_none.mp hcli
  have hred : handleRefreshToken nAT nRT now tokenExp st clientID rt
      = ⟨TokenResult.oauthError ⟨"invalid_grant", "Refresh token does not belong to client", 400⟩,
         { st with accessTokens := mapErase st.accessTokens oldKey },
         [{ st with accessTokens := mapErase st.accessTokens oldKey }]⟩ := by
    unfold handleRefreshToken
    rw [if_neg hrt, if_neg h2, hfind]
    dsimp only
    rw [if_pos hmis]
  rw [hred]
  exact ⟨rfl, rfl, mapGet_mapErase_self st.accessTokens oldKey, rfl⟩

/-- Witness for the amended C4 at the concrete cross-client state. -/
theorem refresh_mismatch_still_deletes_witness :
    (handleRefreshToken "nAT" "nRT" 0 3600 crossState "clientB" "rtA").result
      = TokenResult.oauthError ⟨"invalid_grant", "Refresh token does not belong to client", 400⟩ ∧
    mapGet (handleRefreshToken "nAT" "nRT" 0 3600 crossState "clientB" "rtA").state.accessTokens "atA"
      = none := by
  have h := refresh_mismatch_still_deletes "nAT" "nRT" 0 3600 crossState
    "clientB" "rtA" "atA" crossToken (by decide) (by decide) (by decide) (by decide)
  exact ⟨h.1, h.2.2.1⟩

/-- The configured user directory for the C9 scenario. -/
def userDirectory : List (String × String) := [("alice", "pwA"), ("bob", "pwB")]

/-- The registered client for the C9 scenario. -/
def flowClient : OAuthClient :=
  { clientID := "cid9", clientSecret := "sec9",
    redirectURIs := ["https://claude.ai/api/mcp/auth_callback"],
    grantTypes := ["authorization_code"], createdAt := 0, clientName := "Claude" }

/-- Initial server state for the C9 scenario. -/
def flowStart : ServerState :=
  { clients := [("cid9", flowClient)], authCodes := [], accessTokens := [] }

/-- The complete login-then-exchange pipeline of the C9 scenario: a POST to
the authorization endpoint with the given credentials followed by the
authorization_code exchange of the issued code. The generated strings and
clock values are held fixed so that only the authenticated user varies. -/
def loginAndExchange (username password : String) : TokenOutput :=
  handleTokenAuthCode (fun _ => "") "AT9" "RT9" 1 3600
    (handleAuthorizationPOST (some userDirectory) "CODE9" 0 flowStart
      username password "cid9" "https://claude.ai/api/mcp/auth_callback" "mcp" "xyz" "" "res").state
    "CODE9" "https://claude.ai/api/mcp/auth_callback" "cid9" "" "res"

/-- C9 (code bug): the issued access token does not determine the
authenticated username. Logins by alice and by bob produce byte-for-byte
identical server outputs — the same AuthorizationCode record, the same
AccessToken record (the structure has no username field), and the same
ValidateToken result — while the authenticated usernames differ, so no
function from the validated token can recover the username that http.go's
middleware expects to read from it. -/
theorem access_token_forgets_username :
    loginAndExchange "alice" "pwA" = loginAndExchange "bob" "pwB" ∧
    (ValidateToken 2 (loginAndExchange "alice" "pwA").state "AT9").1
      = some { token := "AT9", refreshToken := "RT9", clientID := "cid9",
               scope := "mcp", resource := "res", expiresAt := 3601 } ∧
    "alice" ≠ "bob" := by decide

/-- Discriminator extracting the OAuth error code and HTTP status of a
registration outcome (none for 201 Created). -/
def regErrorCode : RegResult → Option (String × Nat)
  | RegResult.created _ => none
  | RegResult.oauthError e => some (e.error, e.status)

/-- The C7 claim exactly as its sentence states it (spec-side definition, for
comparison against the implementation): invalid_redirect_uri is returned
exactly when the redirect list is empty or some URI is off the allowlist, and
access_denied exactly when the IP allowlist is non-empty and the client IP is
not a member — each biconditional unconditional on the other check. -/
def registrationRaisesIffSpec (allowedIPs : List String) (clientIP : String)
    (req : ClientRegistrationRequest) (newClientID newClientSecret : String)
    (now : Nat) (st : ServerState) : Prop :=
  (regErrorCode (handleClientRegistration allowedIPs clientIP req newClientID
        newClientSecret now st).result = some ("invalid_redirect_uri", 400) ↔
    (req.redirectURIs = [] ∨ ¬ req.redirectURIs.all (fun uri => allowedCallbackURLs.contains uri))) ∧
  (regErrorCode (handleClientRegistration allowedIPs clientIP req newClientID
        newClientSecret now st).result = some ("access_denied", 403) ↔
    (allowedIPs ≠ [] ∧ ¬ (allowedIPs.contains clientIP = true)))

/-- C7 counterexample: a request from a non-allowlisted IP with an empty
redirect list gets access_denied, not invalid_redirect_uri, so the claim's
invalid_redirect_uri biconditional fails at this input (the IP check runs
first). -/
theorem registration_raises_iff_cex :
    ¬ registrationRaisesIffSpec ["1.2.3.4"] "9.9.9.9" ⟨[], [], "", ""⟩ "cid" "sec" 0 ⟨[], [], []⟩ := by
  unfold registrationRaisesIffSpec
  decide

/-- C7 as amended: access_denied is returned exactly when the configured IP
allowlist is non-empty and the resolved client IP is not a member;
invalid_redirect_uri exactly when the IP check passes and the redirect list
is empty or holds a URI outside the fixed callback allowlist (the IP check
takes precedence); otherwise the client is stored, the state persisted, and
the 201 response carries the generated client_id and client_secret. -/
theorem registration_error_precedence (allowedIPs : List String) (clientIP : String)
    (req : ClientRegistrationRequest) (newClientID newClientSecret : String)
    (now : Nat) (st : ServerState) :
    (regErrorCode (handleClientRegistration allowedIPs clientIP req newClientID
          newClientSecret now st).result = some ("access_denied", 403) ↔
      (allowedIPs ≠ [] ∧ ¬ (allowedIPs.contains clientIP = true))) ∧
    (regErrorCode (handleClientRegistration allowedIPs clientIP req newClientID
          newClientSecret now st).result = some ("invalid_redirect_uri", 400) ↔
      ((allowedIPs = [] ∨ allowedIPs.contains clientIP = true) ∧
       (req.redirectURIs = [] ∨ ¬ req.redirectURIs.all (fun uri => allowedCallbackURLs.contains uri)))) ∧
    ((allowedIPs = [] ∨ allowedIPs.contains clientIP = true) →
      req.redirectURIs ≠ [] →
      req.redirectURIs.all (fun uri => allowedCallbackURLs.contains uri) = true →
      (handleClientRegistration allowedIPs clientIP req newClientID newClientSecret now st).result
        = RegResult.created
            { clientID := newClientID, clientSecret := newClientSecret,
              redirectURIs := req.redirectURIs,
              grantTypes := if 0 < req.grantTypes.length then req.grantTypes
                            else ["authorization_code"],
              createdAt := now } ∧
      mapGet (handleClientRegistration allowedIPs clientIP req newClientID
          newClientSecret now st).state.clients newClientID
        = some { clientID := newClientID, clientSecret := newClientSecret,
                 redirectURIs := req.redirectURIs,
                 grantTypes := if 0 < req.grantTypes.length then req.grantTypes
                               else ["authorization_code"],
                 createdAt := now, clientName := req.clientName } ∧
      (handleClientRegistration allowedIPs clientIP req newClientID
          newClientSecret now st).saves
        = [(handleClientRegistration allowedIPs clientIP req newClientID
            newClientSecret now st).state]) := by
  have hipneg : ∀ h1 : ¬ (0 < allowedIPs.length ∧ ¬ isIPAllowed clientIP allowedIPs),
      allowedIPs = [] ∨ allowedIPs.contains clientIP = true := by
    intro h1
    by_cases he : allowedIPs = []
    · exact Or.inl he
    · have hl : 0 < allowedIPs.length := List.length_pos.mpr he
      have hall : isIPAllowed clientIP allowedIPs = true := by
        by_contra hn
        exact h1 ⟨hl, fun h => hn h⟩
      unfold isIPAllowed at hall
      rw [if_neg (by omega)] at hall
      exact Or.inr hall
  have hippos : ∀ h1 : (0 < allowedIPs.length ∧ ¬ isIPAllowed clientIP allowedIPs),
      allowedIPs ≠ [] ∧ ¬ (allowedIPs.contains clientIP = true) := by
    rintro ⟨hl, hn⟩
    refine ⟨by intro h; subst h; simp at hl, ?_⟩
    unfold isIPAllowed at hn
    rw [if_neg (by omega)] at hn
    exact hn
  have hipfalse : ∀ _ : allowedIPs = [] ∨ allowedIPs.contains clientIP = true,
      ¬ (0 < allowedIPs.length ∧ ¬ isIPAllowed clientIP allowedIPs) := by
    rintro (he | hc) ⟨hl, hn⟩
    · subst he; simp at hl
    · apply hn
      unfold isIPAllowed
      by_cases hz : allowedIPs.length = 0
      · rw [if_pos hz]
      · rw [if_neg hz]; exact hc
  unfold handleClientRegistration
  by_cases h1 : 0 < allowedIPs.length ∧ ¬ isIPAllowed clientIP allowedIPs
  · rw [if_pos h1]
    refine ⟨iff_of_true rfl (hippos h1), iff_of_false (by simp [regErrorCode]) ?_, ?_⟩
    · rintro ⟨hpass, -⟩
      exact hipfalse hpass h1
    · intro hpass _ _
      exact absurd h1 (hipfalse hpass)
  · rw [if_neg h1]
    by_cases h2 : req.redirectURIs.length = 0
    · rw [if_pos h2]
      refine ⟨iff_of_false (by simp [regErrorCode]) ?_, iff_of_true rfl ?_, ?_⟩
      · rintro ⟨hne, hnc⟩
        rcases hipneg h1 with he | hc
        · exact hne he
        · exact hnc hc
      · exact ⟨hipneg h1, Or.inl (List.length_eq_zero.mp h2)⟩
      · intro _ hne _
        exact absurd (List.length_eq_zero.mp h2) hne
    · rw [if_neg h2]
      by_cases h3 : ¬ req.redirectURIs.all (fun uri => allowedCallbackURLs.contains uri)
      · rw [if_pos h3]
        refine ⟨iff_of_false (by simp [regErrorCode]) ?_, iff_of_true rfl ?_, ?_⟩
        · rintro ⟨hne, hnc⟩
          rcases hipneg h1 with he | hc
          · exact hne he
          · exact hnc hc
        · exact ⟨hipneg h1, Or.inr h3⟩
        · intro _ _ hall
          exact absurd hall h3
      · rw [if_neg h3]
        refine ⟨iff_of_false (by simp [regErrorCode]) ?_, iff_of_false (by simp [regErrorCode]) ?_, ?_⟩
        · rintro ⟨hne, hnc⟩
          rcases hipneg h1 with he | hc
          · exact hne he
          · exact hnc hc
        · rintro ⟨-, hbad | hbad⟩
          · exact h2 (by rw [hbad]; rfl)
          · exact h3 hbad
        · intro _ _ _
          exact ⟨rfl, mapGet_mapSet_self _ _ _, rfl⟩

/-- Witness for the amended C7: a well-formed registration from an
unrestricted deployment succeeds with 201 and stores the client. -/
theorem registration_error_precedence_witness :
    (handleClientRegistration [] "203.0.113.7"
        ⟨["https://claude.ai/api/mcp/auth_callback"], [], "", "Claude"⟩
        "CID7" "SEC7" 3 ⟨[], [], []⟩).result
      = RegResult.created
          { clientID := "CID7", clientSecret := "SEC7",
            redirectURIs := ["https://claude.ai/api/mcp/auth_callback"],
            grantTypes := ["authorization_code"], createdAt := 3 } := by
  have h := (registration_error_precedence [] "203.0.113.7"
    ⟨["https://claude.ai/api/mcp/auth_callback"], [], "", "Claude"⟩
    "CID7" "SEC7" 3 ⟨[], [], []⟩).2.2 (Or.inl rfl) (by decide) (by decide)
  simpa using h.1

/-- Structured containment: the string s occurs as a field value of the
registration response body. -/
def regResponseMentions (resp : ClientRegistrationResponse) (s : String) : Prop :=
  resp.clientID = s ∨ resp.clientSecret = s ∨ s ∈ resp.redirectURIs ∨ s ∈ resp.grantTypes

/-- A successful registration of the C8 scenario. -/
def leakOut : RegOutput :=
  handleClientRegistration [] "203.0.113.7"
    ⟨["https://claude.ai/api/mcp/auth_callback"], [], "", "Claude"⟩
    "CID8" "SECRET8" 0 ⟨[], [], []⟩

/-- C8 counterexample: the 201 registration response body carries the client
secret value of the freshly stored client, so the claim that no response body
produced by the Authorization Server contains a client secret value fails at
this input. -/
theorem registration_response_contains_secret_cex :
    leakOut.result = RegResult.created
      { clientID := "CID8", clientSecret := "SECRET8",
        redirectURIs := ["https://claude.ai/api/mcp/auth_callback"],
        grantTypes := ["authorization_code"], createdAt := 0 } ∧
    (mapGet leakOut.state.clients "CID8").map (fun c => c.clientSecret) = some "SECRET8" ∧
    regResponseMentions
      { clientID := "CID8", clientSecret := "SECRET8",
        redirectURIs := ["https://claude.ai/api/mcp/auth_callback"],
        grantTypes := ["authorization_code"], createdAt := 0 } "SECRET8" :=
  ⟨by decide, by decide, Or.inr (Or.inl rfl)⟩

/-- The fixed table of every error body the embedded handlers can emit. -/
def errorResponseTable : List OAuthErrorResponse :=
  [⟨"access_denied", "Client registration not allowed from this IP", 403⟩,
   ⟨"invalid_redirect_uri", "At least one redirect URI is required", 400⟩,
   ⟨"invalid_redirect_uri", "Redirect URI not allowed", 400⟩,
   ⟨"invalid_request", "Missing required parameters", 400⟩,
   ⟨"invalid_request", "Missing refresh_token", 400⟩,
   ⟨"invalid_client", "Client not found", 401⟩,
   ⟨"invalid_grant", "Invalid or expired authorization code", 400⟩,
   ⟨"invalid_grant", "Authorization code expired", 400⟩,
   ⟨"invalid_grant", "Authorization code does not match client", 400⟩,
   ⟨"invalid_grant", "PKCE verification failed", 400⟩,
   ⟨"invalid_grant", "Invalid refresh token", 400⟩,
   ⟨"invalid_grant", "Refresh token does not belong to client", 400⟩,
   ⟨"unsupported_grant_type", "Only authorization_code and refresh_token grant types are supported", 400⟩,
   ⟨"server_error", "Authentication not configured", 500⟩]

/-- C8 as amended: every error response emitted by the token, registration
and authorization-POST handlers is one of a fixed table of constant
error/description/status triples, independent of every password, secret,
token and request value; only success responses carry the credentials they
deliberately issue. -/
theorem error_responses_constant (s256 : String → String)
    (nAT nRT newID newSec newCode : String) (now tokenExp : Nat)
    (st : ServerState) (req : TokenRequest)
    (allowedIPs : List String) (clientIP : String) (regReq : ClientRegistrationRequest)
    (users : Option (List (String × String)))
    (username password clientID redirectURI scope state codeChallenge resource : String) :
    (∀ e, (handleToken s256 nAT nRT now tokenExp st req).result = TokenResult.oauthError e →
        e ∈ errorResponseTable) ∧
    (∀ e, (handleClientRegistration allowedIPs clientIP regReq newID newSec now st).result
        = RegResult.oauthError e → e ∈ errorResponseTable) ∧
    (∀ e, (handleAuthorizationPOST users newCode now st username password clientID
          redirectURI scope state codeChallenge resource).result
        = AuthPostResult.oauthError e → e ∈ errorResponseTable) := by
  refine ⟨?_, ?_, ?_⟩
  · intro e he
    unfold handleToken handleRefreshToken handleTokenAuthCode at he
    repeat' split at he
    all_goals simp_all [errorResponseTable]
  · intro e he
    unfold handleClientRegistration at he
    repeat' split at he
    all_goals simp_all [errorResponseTable]
  · intro e he
    unfold handleAuthorizationPOST at he
    repeat' split at he
    all_goals simp_all [errorResponseTable]

/-- Witness for the amended C8: the invalid_client error produced by a token
request naming an unregistered client is one of the table's constants. -/
theorem error_responses_constant_witness :
    (⟨"invalid_client", "Client not found", 401⟩ : OAuthErrorResponse) ∈ errorResponseTable :=
  (error_responses_constant (fun _ => "") "A" "R" "ID" "SEC" "C" 0 3600 ⟨[], [], []⟩
      ⟨"authorization_code", "K", "u", "cX", "", "", ""⟩ [] "ip" ⟨[], [], "", ""⟩ none
      "u" "p" "c" "r" "s" "st" "ch" "res").1
    ⟨"invalid_client", "Client not found", 401⟩ (by decide)

end MCPProxy
